import Mathlib

/-!
Shallow embedding of the client-side core of the trading dashboard
(`src/web/frontend/src`): status polling, start/stop control, settings
draft handling, display formatters and the synthetic chart series.

JavaScript numbers are modelled as exact rationals (`ℚ`) where the code
only compares, scales and rounds them; where NaN/Infinity behaviour of
the runtime matters (the Maximum Capital input), numbers are modelled by
the inductive `JSNum`.  Asynchronous handlers are modelled as pure state
transformers taking the outcome of each network call (`Except String α`)
as an explicit argument: `.ok` is a fulfilled promise, `.error` a
rejected one.
-/

namespace Agents

/-- Type `BotStatus` from `types.ts`: `'stopped' | 'running' | 'scanning'`. -/
inductive BotStatus where
  | stopped
  | running
  | scanning
deriving DecidableEq

/-- Interface `PortfolioSummary` from `types.ts` (all numeric fields). -/
structure PortfolioSummary where
  total_value : ℚ
  cash_balance : ℚ
  positions_value : ℚ
  total_pnl : ℚ
  total_return_pct : ℚ
  realized_pnl : ℚ
  unrealized_pnl : ℚ
  num_open_positions : ℕ
  total_trades : ℕ
deriving DecidableEq

/-- Interface `StatusResponse` from `types.ts`. -/
structure StatusResponse where
  bot_status : BotStatus
  mode : String
  portfolio : PortfolioSummary
  active_strategies : List String
  uptime_seconds : ℚ
deriving DecidableEq

/-- Activity entry type tag from `types.ts`: `'scan' | 'trade' | 'info' | 'error'`. -/
inductive ActivityType where
  | scan
  | trade
  | info
  | error
deriving DecidableEq

/-- Interface `ActivityLogEntry` from `types.ts`. -/
structure ActivityLogEntry where
  timestamp : String
  tag : ActivityType
  message : String
deriving DecidableEq

/-- Interface `Opportunity` from `types.ts`; `annualized_return` and the other
optional fields are `Option`s, `undefined` being `none`. -/
structure Opportunity where
  id : String
  name : String
  strategy : String
  edge : ℚ
  edge_pct : ℚ
  annualized_return : Option ℚ
  liquidity : ℚ
  days_until_resolution : Option ℚ
  total_cost : Option ℚ
  num_outcomes : Option ℕ
deriving DecidableEq

/-- A JavaScript `number` where the special values matter: NaN, the two
infinities, or a finite value (kept as an exact rational). -/
inductive JSNum where
  | nan
  | inf (positive : Bool)
  | fin (q : ℚ)
deriving DecidableEq

/-- JavaScript truthiness of a number: `NaN` and `0` (also `-0`) are
falsy, every other number including the infinities is truthy. -/
def JSNum.truthy : JSNum → Bool
  | .nan => false
  | .inf _ => true
  | .fin q => decide (q ≠ 0)

/-- Record `strategies_enabled` from `types.ts` (all four keys always
present). -/
structure StrategiesEnabled where
  fullset : Bool
  endgame : Bool
  oracle : Bool
  rewards : Bool
deriving DecidableEq

/-- Interface `BotSettings` from `types.ts`.  `max_capital` is kept as a `JSNum`
because the Settings page can store the result of `parseFloat` there. -/
structure BotSettings where
  risk_appetite : ℚ
  strategies_enabled : StrategiesEnabled
  max_capital : JSNum
deriving DecidableEq

/-! ## Dashboard page (`pages/Dashboard.tsx`) -/

/-- The React state of the `Dashboard` component that the poll loop and
the start/stop handler touch: `status`, `activity`, `loading`. -/
structure DashboardState where
  status : Option StatusResponse
  activity : List ActivityLogEntry
  loading : Bool
deriving DecidableEq

/-- A command sent to the remote bot by the Dashboard. -/
inductive Command where
  | stop
  | start (preset : String)
deriving DecidableEq

/-- Function `fetchData` of `Dashboard.tsx`: one poll tick.  The two fetch
outcomes are the arguments.  `Promise.all([getBotStatus(), getActivityLog(20)])`
fulfills only when both fetches succeed, in which case `setStatus` and
`setActivity` run; if either fetch rejects, the joined await throws,
the `catch` only logs, and neither setter runs.  `finally` clears
`loading` either way. -/
def fetchData (statusRes : Except String StatusResponse)
    (activityRes : Except String (List ActivityLogEntry))
    (s : DashboardState) : DashboardState :=
  match statusRes, activityRes with
  | .ok statusData, .ok activityData =>
      { s with status := some statusData, activity := activityData, loading := false }
  | _, _ => { s with loading := false }

/-- The guard of `handleStartStop`:
`status?.bot_status === 'running' || status?.bot_status === 'scanning'`
(`undefined` when `status` is `null`, hence false). -/
def isRunningOrScanning (s : DashboardState) : Prop :=
  s.status.map StatusResponse.bot_status = some BotStatus.running ∨
    s.status.map StatusResponse.bot_status = some BotStatus.scanning

instance (s : DashboardState) : Decidable (isRunningOrScanning s) := by
  unfold isRunningOrScanning; infer_instance

/-- Result of one invocation of `handleStartStop`: the Dashboard state
afterwards, the commands issued, and whether the refresh (`fetchData()`)
was issued. -/
structure ToggleResult where
  state : DashboardState
  commands : List Command
  refreshIssued : Bool
deriving DecidableEq

/-- Function `handleStartStop` of `Dashboard.tsx`.  `cmdResult` is the outcome of
the awaited `stopBot()`/`startBot('balanced')` call; `statusRes` and
`activityRes` are the fetch outcomes of the `fetchData()` refresh.  In
the source, `fetchData()` stands inside the `try` after the awaited
command, so it only runs when the command succeeded; a rejected command
jumps to the `catch`, which only logs. -/
def handleStartStop (s : DashboardState) (cmdResult : Except String String)
    (statusRes : Except String StatusResponse)
    (activityRes : Except String (List ActivityLogEntry)) : ToggleResult :=
  let cmd : Command :=
    if isRunningOrScanning s then Command.stop else Command.start "balanced"
  match cmdResult with
  | .ok _ =>
      { state := fetchData statusRes activityRes s
        commands := [cmd]
        refreshIssued := true }
  | .error _ =>
      { state := s, commands := [cmd], refreshIssued := false }

/-! ## Settings page (`pages/Settings.tsx`) -/

/-- The React state of the `Settings` component: the loading and saving
flags and the editable draft. -/
structure SettingsState where
  loading : Bool
  saving : Bool
  settings : BotSettings
deriving DecidableEq

/-- The `useState` initializer of the draft in `Settings.tsx`:
`{risk_appetite: 0.5, strategies_enabled: {fullset: true, endgame: true,
oracle: false, rewards: true}, max_capital: 1000}`. -/
def defaultDraft : BotSettings :=
  { risk_appetite := 1/2
    strategies_enabled :=
      { fullset := true, endgame := true, oracle := false, rewards := true }
    max_capital := JSNum.fin 1000 }

/-- The `Settings` component's state on mount: `loading = true`,
`saving = false`, draft at its local default. -/
def initialSettingsState : SettingsState :=
  { loading := true, saving := false, settings := defaultDraft }

/-- Function `loadSettings` of `Settings.tsx`: on a fulfilled `getSettings()` the
three fields of the response replace the draft; on rejection the `catch`
only logs; `finally` clears `loading` either way. -/
def loadSettings (res : Except String BotSettings) (s : SettingsState) :
    SettingsState :=
  match res with
  | .ok data =>
      { s with
          settings :=
            { risk_appetite := data.risk_appetite
              strategies_enabled := data.strategies_enabled
              max_capital := data.max_capital }
          loading := false }
  | .error _ => { s with loading := false }

/-- Result of one invocation of `handleSave`: the state afterwards, the
request body that `updateSettings` transmitted, and whether the page
navigated to the dashboard. -/
structure SaveResult where
  state : SettingsState
  body : BotSettings
  navigated : Bool
deriving DecidableEq

/-- Function `handleSave` of `Settings.tsx`: sets `saving`, awaits
`updateSettings(settings)` — the body is the whole draft — navigates on
success, logs on failure, and clears `saving` in `finally`.  The draft
itself is never written. -/
def handleSave (saveRes : Except String BotSettings) (s : SettingsState) :
    SaveResult :=
  match saveRes with
  | .ok _ =>
      { state := { s with saving := false }, body := s.settings, navigated := true }
  | .error _ =>
      { state := { s with saving := false }, body := s.settings, navigated := false }

/-- Function `getRiskLabel` of `Settings.tsx`. -/
def getRiskLabel (value : ℚ) : String :=
  if value < 33/100 then "Conservative"
  else if value < 66/100 then "Balanced"
  else "Aggressive"

/-- What the `Settings` page renders: the loading screen while
`loading` is set, otherwise the form populated from the draft. -/
def settingsView (s : SettingsState) : Option BotSettings :=
  if s.loading then none else some s.settings

/-! ## Formatters (`components/widgets/TopOpportunities`, `Stat.tsx` call sites) -/

/-- Model of JavaScript `Math.round`: round half toward positive
infinity. -/
def jsRound (x : ℚ) : ℤ := ⌊x + 1/2⌋

/-- Rounding step `Math.round(value * 100) / 100` used by the chart
generator. -/
def round2 (x : ℚ) : ℚ := ((jsRound (x * 100) : ℤ) : ℚ) / 100

/-- Model of JavaScript `Number.prototype.toFixed(1)` on exact
rationals: per the ECMAScript algorithm the sign is split off first,
then the magnitude is rounded to the nearest tenth with ties picking
the larger numerator (half away from zero overall). -/
def toFixed1 (x : ℚ) : String :=
  let m : ℕ := (⌊10 * |x| + 1/2⌋).toNat
  (if x < 0 then "-" else "") ++ toString (m / 10) ++ "." ++ toString (m % 10)

/-- Function `formatReturn` of `TopOpportunities`: `undefined` renders
as "N/A", a number as `toFixed(1)` with a trailing percent sign. -/
def formatReturn : Option ℚ → String
  | none => "N/A"
  | some v => toFixed1 v ++ "%"

/-- JavaScript `a || b` on an optional number `a` and a number `b`:
`a` wins when it is truthy (present and nonzero), otherwise `b`. -/
def jsOr (a : Option ℚ) (b : ℚ) : ℚ :=
  match a with
  | some x => if x = 0 then b else x
  | none => b

/-- The return string the opportunity row displays:
`formatReturn(o.annualized_return || o.edge_pct)`. -/
def displayedReturn (o : Opportunity) : String :=
  formatReturn (some (jsOr o.annualized_return o.edge_pct))

/-- Modelled from the spec: the displayed return per the specification's
words — `annualized_return` if present, else `edge_pct` (which the data
model makes always present), else "N/A" — a fallback on field presence
only.  Kept separate from `displayedReturn`, which embeds the source's
truthiness-based expression, so the two can be compared. -/
def displayedReturnSpec (o : Opportunity) : String :=
  match o.annualized_return with
  | some v => formatReturn (some v)
  | none => formatReturn (some o.edge_pct)

/-! ## Synthetic series generator (`components/widgets/PortfolioChart.tsx`) -/

/-- Label `i.toString().padStart(2, '0') + ':00'`; the decimal string of
a natural number is never empty, so padding prepends at most one '0'. -/
def hourLabel (i : ℕ) : String :=
  (if (toString i).length < 2 then "0" ++ toString i else toString i) ++ ":00"

/-- Loop body of `generateMockData`: at index `i` with `n` iterations
left, push `(hourLabel i, round2 value)` and advance the running value
by `(rand i - 0.45) * 10`, `rand` standing for the `Math.random()`
draws. -/
def mockLoop (rand : ℕ → ℚ) : ℕ → ℕ → ℚ → List (String × ℚ)
  | _, 0, _ => []
  | i, n + 1, value =>
      (hourLabel i, round2 value) ::
        mockLoop rand (i + 1) n (value + (rand i - 45/100) * 10)

/-- Assignment `data[data.length - 1].value = currentValue`: replace the
value of the last point, if any. -/
def setLastValue : List (String × ℚ) → ℚ → List (String × ℚ)
  | [], _ => []
  | [p], v => [(p.1, v)]
  | p :: q :: rest, v => p :: setLastValue (q :: rest) v

/-- Function `generateMockData` of `PortfolioChart.tsx`: 24 points
seeded at `currentValue * 0.95`, each pushed value rounded to 2
decimals, then the last point's value overwritten with `currentValue`
exactly. -/
def generateMockData (rand : ℕ → ℚ) (currentValue : ℚ) : List (String × ℚ) :=
  setLastValue (mockLoop rand 0 24 (currentValue * (95/100))) currentValue

/-! ## Maximum Capital input (`pages/Settings.tsx` onChange) -/

/-- Sign prefix of a JavaScript numeric literal: strip one leading '-'
or '+' and report whether the value is negated. -/
def parseSignChars : List Char → Bool × List Char
  | '-' :: rest => (true, rest)
  | '+' :: rest => (false, rest)
  | l => (false, l)

/-- Value of a run of decimal digit characters (0 for the empty run). -/
def digitsVal (l : List Char) : ℕ :=
  l.foldl (fun a c => a * 10 + (c.toNat - 48)) 0

/-- Parse a nonempty all-digit run, as required for an exponent part. -/
def parseNatDigits (l : List Char) : Option ℕ :=
  if l.isEmpty || !(l.all Char.isDigit) then none else some (digitsVal l)

/-- Syntactic shape of a parsed JavaScript decimal literal, kept in
integers so concrete parses evaluate by kernel reduction; its rational
value is computed separately by `litValue`. -/
structure ParsedLit where
  neg : Bool
  intPart : ℕ
  fracPart : ℕ
  fracLen : ℕ
  exp : ℤ
deriving DecidableEq

/-- Unsigned mantissa of a JavaScript decimal literal: `digits`,
`digits.digits?` or `.digits`, as (integer part, fraction digits,
fraction length). -/
def parseMantissa (l : List Char) : Option (ℕ × ℕ × ℕ) :=
  match l.splitOn '.' with
  | [ip] => (parseNatDigits ip).map (fun n => (n, 0, 0))
  | [ip, fp] =>
      if ip.isEmpty && fp.isEmpty then none
      else if ip.all Char.isDigit && fp.all Char.isDigit then
        some (digitsVal ip, digitsVal fp, fp.length)
      else none
  | _ => none

/-- Signed integer exponent after the 'e' of a numeric literal. -/
def parseExp (l : List Char) : Option ℤ :=
  let p := parseSignChars l
  (parseNatDigits p.2).map (fun n => if p.1 then -(n : ℤ) else (n : ℤ))

/-- Char-level parse of a JavaScript floating-point literal
`sign? digits ('.' digits?)? ('e' sign? digits)?` (also `.digits`,
uppercase 'E'); `none` when the string is not such a literal. -/
def parseLit (s : String) : Option ParsedLit :=
  let l := s.data.map (fun c => if c = 'E' then 'e' else c)
  let p := parseSignChars l
  match p.2.splitOn 'e' with
  | [m] =>
      (parseMantissa m).map (fun q => ⟨p.1, q.1, q.2.1, q.2.2, 0⟩)
  | [m, ex] =>
      match parseMantissa m, parseExp ex with
      | some q, some e => some ⟨p.1, q.1, q.2.1, q.2.2, e⟩
      | _, _ => none
  | _ => none

/-- Exact rational value of a parsed literal. -/
def litValue (p : ParsedLit) : ℚ :=
  (if p.neg then -1 else 1) *
    ((p.intPart : ℚ) + (p.fracPart : ℚ) / 10 ^ p.fracLen) * (10 : ℚ) ^ p.exp

/-- Conversion of an exact parsed rational to a JavaScript number: the
model keeps finite values exact instead of rounding them to the nearest
IEEE-754 double, and magnitudes reaching 2^1024 overflow to an infinity
as in IEEE-754. -/
def toJSNumber (q : ℚ) : JSNum :=
  if (2 : ℚ) ^ 1024 ≤ q then .inf true
  else if q ≤ -((2 : ℚ) ^ 1024) then .inf false
  else .fin q

/-- Modelled from the ECMAScript `parseFloat` builtin (not part of this
repository), restricted to the sanitized value strings an
`input type="number"` can hand to the `onChange` handler: the empty
string or a valid floating-point literal; such values carry no
surrounding whitespace or trailing garbage and never the literal word
Infinity, so those parts of the builtin are out of the model's domain
and everything unparsable maps to NaN. -/
def jsParseFloat (s : String) : JSNum :=
  match parseLit s with
  | some p => toJSNumber (litValue p)
  | none => .nan

/-- The Maximum Capital input's `onChange` handler in `Settings.tsx`:
`max_capital: parseFloat(e.target.value) || 0`. -/
def maxCapitalOnChange (inputValue : String) (s : SettingsState) :
    SettingsState :=
  let parsed := jsParseFloat inputValue
  { s with
      settings :=
        { s.settings with
            max_capital := if parsed.truthy then parsed else JSNum.fin 0 } }

/-! ## Sample values used by concrete instances -/

/-- Sample portfolio with all figures zero. -/
def samplePortfolio : PortfolioSummary :=
  { total_value := 0, cash_balance := 0, positions_value := 0, total_pnl := 0
    total_return_pct := 0, realized_pnl := 0, unrealized_pnl := 0
    num_open_positions := 0, total_trades := 0 }

/-- Sample status response with the given bot status. -/
def sampleStatus (b : BotStatus) : StatusResponse :=
  { bot_status := b, mode := "paper", portfolio := samplePortfolio
    active_strategies := [], uptime_seconds := 0 }

/-- Sample activity log entry. -/
def sampleEntry : ActivityLogEntry :=
  { timestamp := "2024-01-01T00:00:00Z", tag := ActivityType.info, message := "scan ok" }

/-- Dashboard state previously filled by a successful poll, bot running. -/
def sampleDashRunning : DashboardState :=
  { status := some (sampleStatus BotStatus.running), activity := [], loading := false }

/-- Dashboard state previously filled by a successful poll, bot stopped. -/
def sampleDashStopped : DashboardState :=
  { status := some (sampleStatus BotStatus.stopped), activity := [], loading := false }

/-- Opportunity whose `annualized_return` is present but `0`. -/
def oppZeroAnnualized : Opportunity :=
  { id := "op1", name := "Sample market", strategy := "fullset", edge := 1/10
    edge_pct := 1234/100, annualized_return := some 0, liquidity := 500
    days_until_resolution := none, total_cost := none, num_outcomes := none }

/-- Opportunity with a nonzero `annualized_return`. -/
def oppWithAnnualized : Opportunity :=
  { id := "op2", name := "Other market", strategy := "endgame", edge := 1/10
    edge_pct := 5, annualized_return := some 50, liquidity := 1500
    days_until_resolution := none, total_cost := none, num_outcomes := none }

/-! ## Helper lemmas -/

theorem toFixed1_nonneg_eq (x : ℚ) (m : ℕ) (hx : 0 ≤ x)
    (h1 : (m : ℚ) ≤ 10 * x + 1/2) (h2 : 10 * x + 1/2 < m + 1) :
    toFixed1 x = toString (m / 10) ++ "." ++ toString (m % 10) := by
  rw [toFixed1]
  have habs : |x| = x := abs_of_nonneg hx
  have hfl : ⌊10 * |x| + 1/2⌋ = (m : ℤ) := by
    rw [habs, Int.floor_eq_iff]
    constructor
    · exact_mod_cast h1
    · push_cast
      exact h2
  rw [hfl]
  have hneg : ¬ x < 0 := not_lt.mpr hx
  simp [hneg, Int.toNat_natCast]

theorem mockLoop_length (rand : ℕ → ℚ) :
    ∀ (n i : ℕ) (v : ℚ), (mockLoop rand i n v).length = n
  | 0, _, _ => rfl
  | n + 1, i, v => by
      simp [mockLoop, mockLoop_length rand n]

theorem setLastValue_length :
    ∀ (l : List (String × ℚ)) (v : ℚ), (setLastValue l v).length = l.length
  | [], _ => rfl
  | [_], _ => rfl
  | _ :: q :: rest, v => by
      simp [setLastValue, setLastValue_length (q :: rest) v]

theorem mockLoop_map_fst (rand : ℕ → ℚ) :
    ∀ (n i : ℕ) (v : ℚ),
      (mockLoop rand i n v).map Prod.fst = (List.range' i n).map hourLabel
  | 0, _, _ => rfl
  | n + 1, i, v => by
      rw [List.range'_succ]
      simp [mockLoop, mockLoop_map_fst rand n (i + 1)]

theorem setLastValue_map_fst :
    ∀ (l : List (String × ℚ)) (v : ℚ),
      (setLastValue l v).map Prod.fst = l.map Prod.fst
  | [], _ => rfl
  | [_], _ => rfl
  | _ :: q :: rest, v => by
      simp [setLastValue, setLastValue_map_fst (q :: rest) v]

theorem setLastValue_eq_dropLast_append :
    ∀ (l : List (String × ℚ)) (v : ℚ) (p : String × ℚ), l.getLast? = some p →
      setLastValue l v = l.dropLast ++ [(p.1, v)]
  | [], _, _, h => by simp at h
  | [q], v, p, h => by
      simp at h
      subst h
      rfl
  | a :: b :: rest, v, p, h => by
      rw [List.getLast?_cons_cons] at h
      have ih := setLastValue_eq_dropLast_append (b :: rest) v p h
      simp [setLastValue, ih, List.dropLast_cons₂]

theorem mockLoop_getLast? (rand : ℕ → ℚ) :
    ∀ (n i : ℕ) (v : ℚ), ∃ w : ℚ,
      (mockLoop rand i (n + 1) v).getLast? = some (hourLabel (i + n), w)
  | 0, i, v => ⟨round2 v, by simp [mockLoop]⟩
  | n + 1, i, v => by
      obtain ⟨w, hw⟩ :=
        mockLoop_getLast? rand n (i + 1) (v + (rand i - 45/100) * 10)
      refine ⟨w, ?_⟩
      rw [show mockLoop rand i (n + 1 + 1) v =
            (hourLabel i, round2 v) ::
              mockLoop rand (i + 1) (n + 1) (v + (rand i - 45/100) * 10) from rfl]
      rw [show mockLoop rand (i + 1) (n + 1) (v + (rand i - 45/100) * 10) =
            (hourLabel (i + 1), round2 (v + (rand i - 45/100) * 10)) ::
              mockLoop rand (i + 1 + 1) n
                (v + (rand i - 45/100) * 10 + (rand (i + 1) - 45/100) * 10) from rfl]
      rw [List.getLast?_cons_cons]
      rw [show (hourLabel (i + 1), round2 (v + (rand i - 45/100) * 10)) ::
            mockLoop rand (i + 1 + 1) n
              (v + (rand i - 45/100) * 10 + (rand (i + 1) - 45/100) * 10) =
            mockLoop rand (i + 1) (n + 1) (v + (rand i - 45/100) * 10) from rfl]
      rw [hw]
      have h3 : i + 1 + n = i + (n + 1) := by omega
      rw [h3]

theorem mockLoop_snd_round (rand : ℕ → ℚ) :
    ∀ (n i : ℕ) (v : ℚ) (p : String × ℚ), p ∈ mockLoop rand i n v →
      ∃ m : ℤ, p.2 = (m : ℚ) / 100
  | 0, _, _, _, h => by simp [mockLoop] at h
  | n + 1, i, v, p, h => by
      rw [show mockLoop rand i (n + 1) v =
            (hourLabel i, round2 v) ::
              mockLoop rand (i + 1) n (v + (rand i - 45/100) * 10) from rfl] at h
      rcases List.mem_cons.mp h with h | h
      · exact ⟨jsRound (v * 100), by rw [h, round2]⟩
      · exact mockLoop_snd_round rand n (i + 1) (v + (rand i - 45/100) * 10) p h

theorem toFixed1_at_1234_div_100 : toFixed1 ((1234 : ℚ)/100) = "12.3" := by
  rw [toFixed1_nonneg_eq (1234/100) 123 (by norm_num) (by norm_num) (by norm_num)]
  decide

theorem toFixed1_at_zero : toFixed1 (0 : ℚ) = "0.0" := by
  rw [toFixed1_nonneg_eq 0 0 (by norm_num) (by norm_num) (by norm_num)]
  decide

theorem jsParseFloat_1e999 : jsParseFloat "1e999" = JSNum.inf true := by
  have h : parseLit "1e999" = some ⟨false, 1, 0, 0, 999⟩ := by decide
  rw [jsParseFloat, h]
  show toJSNumber (litValue ⟨false, 1, 0, 0, 999⟩) = JSNum.inf true
  rw [toJSNumber, litValue]
  norm_num

theorem jsParseFloat_neg5 : jsParseFloat "-5" = JSNum.fin (-5) := by
  have h : parseLit "-5" = some ⟨true, 5, 0, 0, 0⟩ := by decide
  rw [jsParseFloat, h]
  show toJSNumber (litValue ⟨true, 5, 0, 0, 0⟩) = JSNum.fin (-5)
  rw [toJSNumber, litValue]
  norm_num

theorem jsParseFloat_zero_str : jsParseFloat "0" = JSNum.fin 0 := by
  have h : parseLit "0" = some ⟨false, 0, 0, 0, 0⟩ := by decide
  rw [jsParseFloat, h]
  show toJSNumber (litValue ⟨false, 0, 0, 0, 0⟩) = JSNum.fin 0
  rw [toJSNumber, litValue]
  norm_num

/-! ## Claim theorems -/

/-- C1: the claim says a failed status fetch with a successful activity
fetch retains the previous status but applies the new activity list.
The code joins both fetches in one `Promise.all`, so at such a tick the
successful activity result is discarded: starting from a snapshot with
an empty activity list, a tick whose status fetch fails and whose
activity fetch returns one new entry leaves the activity list empty
(and the status retained); only a fully successful poll replaces both
halves. -/
theorem fetchData_joined_failure_discards_activity :
    (fetchData (Except.error "status down") (Except.ok [sampleEntry])
        sampleDashRunning).activity = sampleDashRunning.activity ∧
      sampleDashRunning.activity = [] ∧
      [sampleEntry] ≠ [] ∧
      (fetchData (Except.error "status down") (Except.ok [sampleEntry])
        sampleDashRunning).status = sampleDashRunning.status ∧
      fetchData (Except.ok (sampleStatus BotStatus.stopped)) (Except.ok [sampleEntry])
          sampleDashRunning =
        { status := some (sampleStatus BotStatus.stopped)
          activity := [sampleEntry]
          loading := false } := by
  refine ⟨rfl, rfl, ?_, rfl, rfl⟩
  simp

/-- C9: any failure of a poll fetch leaves the previously displayed
status and activity unchanged — a transient failure never clears
previously displayed data — and a successful poll fully replaces both
halves of the snapshot. -/
theorem fetchData_failure_keeps_snapshot (s : DashboardState)
    (statusRes : Except String StatusResponse)
    (activityRes : Except String (List ActivityLogEntry))
    (h : statusRes.isOk = false ∨ activityRes.isOk = false) :
    (fetchData statusRes activityRes s).status = s.status ∧
      (fetchData statusRes activityRes s).activity = s.activity ∧
      ∀ (st : StatusResponse) (act : List ActivityLogEntry),
        fetchData (Except.ok st) (Except.ok act) s =
          { status := some st, activity := act, loading := false } := by
  refine ⟨?_, ?_, fun st act => rfl⟩ <;>
    cases statusRes <;> cases activityRes <;> simp [fetchData, Except.isOk, Except.toBool] at h ⊢

theorem fetchData_failure_keeps_snapshot_witness :
    ((Except.error "down" : Except String StatusResponse).isOk = false ∨
        (Except.ok [sampleEntry] : Except String (List ActivityLogEntry)).isOk = false) ∧
      (fetchData (Except.error "down") (Except.ok [sampleEntry])
        sampleDashRunning).status = sampleDashRunning.status :=
  ⟨Or.inl rfl,
    (fetchData_failure_keeps_snapshot sampleDashRunning (Except.error "down")
      (Except.ok [sampleEntry]) (Or.inl rfl)).1⟩

/-- C3: when the current status is Running or Scanning the toggle issues
exactly one stop command and no start command; otherwise it issues
exactly one start command with the selected preset (the Dashboard's
fixed "balanced") and no stop command. -/
theorem handleStartStop_command_choice (s : DashboardState)
    (cmdResult : Except String String)
    (statusRes : Except String StatusResponse)
    (activityRes : Except String (List ActivityLogEntry)) :
    (isRunningOrScanning s →
        (handleStartStop s cmdResult statusRes activityRes).commands = [Command.stop]) ∧
      (¬ isRunningOrScanning s →
        (handleStartStop s cmdResult statusRes activityRes).commands
          = [Command.start "balanced"]) := by
  constructor <;> intro h <;> cases cmdResult <;> simp [handleStartStop, h]

theorem handleStartStop_command_choice_witness :
    isRunningOrScanning sampleDashRunning ∧
      (handleStartStop sampleDashRunning (Except.ok "ok")
          (Except.ok (sampleStatus BotStatus.running)) (Except.ok [])).commands
        = [Command.stop] ∧
      ¬ isRunningOrScanning sampleDashStopped ∧
      (handleStartStop sampleDashStopped (Except.ok "ok")
          (Except.ok (sampleStatus BotStatus.running)) (Except.ok [])).commands
        = [Command.start "balanced"] := by
  have h1 : isRunningOrScanning sampleDashRunning := by decide
  have h2 : ¬ isRunningOrScanning sampleDashStopped := by decide
  exact ⟨h1, (handleStartStop_command_choice sampleDashRunning _ _ _).1 h1, h2,
    (handleStartStop_command_choice sampleDashStopped _ _ _).2 h2⟩

/-- C4: the claim says the refresh is triggered equally on success and
on failure of the command.  In the code `fetchData()` stands inside the
`try` after the awaited command, so a failed command skips the refresh:
with the command rejected, `refreshIssued` is false and the state is
left exactly as it was. -/
theorem handleStartStop_failure_skips_refresh_cex :
    (handleStartStop sampleDashStopped (Except.error "network")
        (Except.ok (sampleStatus BotStatus.running)) (Except.ok [sampleEntry])).refreshIssued
        = false ∧
      (handleStartStop sampleDashStopped (Except.error "network")
        (Except.ok (sampleStatus BotStatus.running)) (Except.ok [sampleEntry])).state
        = sampleDashStopped :=
  ⟨rfl, rfl⟩

/-- C4 (amended): the refresh is issued exactly when the command
succeeds; a failed command leaves the dashboard state untouched, a
successful one applies `fetchData` to the refresh poll's results; in
either case the displayed status is the retained one or the one the
refresh poll fetched — never a locally assumed transition. -/
theorem handleStartStop_refresh_on_success_only (s : DashboardState)
    (cmdResult : Except String String)
    (statusRes : Except String StatusResponse)
    (activityRes : Except String (List ActivityLogEntry)) :
    (handleStartStop s cmdResult statusRes activityRes).refreshIssued = cmdResult.isOk ∧
      (cmdResult.isOk = false →
        (handleStartStop s cmdResult statusRes activityRes).state = s) ∧
      (cmdResult.isOk = true →
        (handleStartStop s cmdResult statusRes activityRes).state
          = fetchData statusRes activityRes s) ∧
      ((handleStartStop s cmdResult statusRes activityRes).state.status = s.status ∨
        ∃ st, statusRes = Except.ok st ∧
          (handleStartStop s cmdResult statusRes activityRes).state.status = some st) := by
  cases cmdResult <;> cases statusRes <;> cases activityRes <;>
    simp [handleStartStop, fetchData, Except.isOk, Except.toBool]

theorem handleStartStop_refresh_on_success_only_witness :
    (Except.error "network" : Except String String).isOk = false ∧
      (handleStartStop sampleDashStopped (Except.error "network")
        (Except.ok (sampleStatus BotStatus.running)) (Except.ok [sampleEntry])).state
        = sampleDashStopped :=
  ⟨rfl,
    (handleStartStop_refresh_on_success_only sampleDashStopped (Except.error "network")
      (Except.ok (sampleStatus BotStatus.running)) (Except.ok [sampleEntry])).2.1 rfl⟩

/-- C5: the claim says a failed settings load ends in an explicit
failed-to-load state and never presents a locally defaulted draft as
current.  The code's `catch` only logs and `finally` clears `loading`,
so after a failed load the page renders the form populated with the
local default draft (risk 0.5, fullset/endgame/rewards on, oracle off,
max capital 1000) as if it were the current remote settings; the
component state has no failed-to-load representation at all. -/
theorem loadSettings_failure_shows_default_draft :
    settingsView (loadSettings (Except.error "load failed") initialSettingsState)
        = some defaultDraft ∧
      defaultDraft =
        { risk_appetite := 1/2
          strategies_enabled :=
            { fullset := true, endgame := true, oracle := false, rewards := true }
          max_capital := JSNum.fin 1000 } :=
  ⟨rfl, rfl⟩

/-- C6: `handleSave` transmits the entire draft: after a load with no
intervening mutation the request body equals the loaded values, the
body always equals the whole draft, and a failed save leaves every
field of the draft unchanged (and does not navigate away). -/
theorem handleSave_transmits_whole_draft (data : BotSettings) (s : SettingsState)
    (saveRes : Except String BotSettings) (e : String) :
    (handleSave saveRes (loadSettings (Except.ok data) s)).body = data ∧
      (handleSave saveRes s).body = s.settings ∧
      (handleSave (Except.error e) s).state.settings = s.settings ∧
      (handleSave (Except.error e) s).navigated = false := by
  refine ⟨?_, ?_, rfl, rfl⟩ <;> cases saveRes <;> rfl

/-- C8: `getRiskLabel` maps r < 0.33 to Conservative, 0.33 ≤ r < 0.66
to Balanced and r ≥ 0.66 to Aggressive, with half-open boundaries: 0,
0.33, 0.66 and 1 land in Conservative, Balanced, Aggressive and
Aggressive respectively. -/
theorem getRiskLabel_bands (r : ℚ) :
    (r < 33/100 → getRiskLabel r = "Conservative") ∧
      (33/100 ≤ r → r < 66/100 → getRiskLabel r = "Balanced") ∧
      (66/100 ≤ r → getRiskLabel r = "Aggressive") ∧
      getRiskLabel 0 = "Conservative" ∧
      getRiskLabel (33/100) = "Balanced" ∧
      getRiskLabel (66/100) = "Aggressive" ∧
      getRiskLabel 1 = "Aggressive" := by
  refine ⟨fun h => ?_, fun h1 h2 => ?_, fun h => ?_, ?_, ?_, ?_, ?_⟩
  · rw [getRiskLabel, if_pos h]
  · rw [getRiskLabel, if_neg (not_lt.mpr h1), if_pos h2]
  · rw [getRiskLabel, if_neg (by linarith), if_neg (not_lt.mpr (by linarith))]
  all_goals norm_num [getRiskLabel]

theorem getRiskLabel_bands_witness :
    ((1 : ℚ)/5 < 33/100 ∧ getRiskLabel (1/5) = "Conservative") ∧
      ((33 : ℚ)/100 ≤ 1/2 ∧ (1 : ℚ)/2 < 66/100 ∧ getRiskLabel (1/2) = "Balanced") ∧
      ((66 : ℚ)/100 ≤ 9/10 ∧ getRiskLabel (9/10) = "Aggressive") :=
  ⟨⟨by norm_num, (getRiskLabel_bands (1/5)).1 (by norm_num)⟩,
    ⟨by norm_num, by norm_num,
      (getRiskLabel_bands (1/2)).2.1 (by norm_num) (by norm_num)⟩,
    ⟨by norm_num, (getRiskLabel_bands (9/10)).2.2.1 (by norm_num)⟩⟩

/-- C7: the claim says the displayed return falls back on field
presence only.  The code computes
`formatReturn(o.annualized_return || o.edge_pct)`, a truthiness
fallback: an opportunity whose `annualized_return` is present but `0`
(with `edge_pct` 12.34) displays "12.3%", while the presence-based
fallback chain of the spec would display "0.0%". -/
theorem displayedReturn_presence_cex :
    displayedReturn oppZeroAnnualized = "12.3%" ∧
      displayedReturnSpec oppZeroAnnualized = "0.0%" ∧
      displayedReturn oppZeroAnnualized ≠ displayedReturnSpec oppZeroAnnualized := by
  have e1 : displayedReturn oppZeroAnnualized = toFixed1 (1234/100) ++ "%" := by
    simp [displayedReturn, oppZeroAnnualized, jsOr, formatReturn]
  have e2 : displayedReturnSpec oppZeroAnnualized = toFixed1 0 ++ "%" := by
    simp [displayedReturnSpec, oppZeroAnnualized, formatReturn]
  refine ⟨?_, ?_, ?_⟩
  · rw [e1, toFixed1_at_1234_div_100]
    rfl
  · rw [e2, toFixed1_at_zero]
    rfl
  · rw [e1, toFixed1_at_1234_div_100, e2, toFixed1_at_zero]
    decide

/-- C7 (amended): the displayed return string is the one-decimal
percentage of `annualized_return` whenever that field is present AND
nonzero; when it is absent or present-but-zero the one-decimal
percentage of `edge_pct` is shown instead — a fallback on JavaScript
truthiness, not on mere presence.  At the formatter level,
`formatReturn` maps `undefined` to "N/A" and 12.34 to "12.3%". -/
theorem displayedReturn_truthiness (o : Opportunity) :
    (∀ v : ℚ, o.annualized_return = some v → v ≠ 0 →
        displayedReturn o = toFixed1 v ++ "%") ∧
      (o.annualized_return = none ∨ o.annualized_return = some 0 →
        displayedReturn o = toFixed1 o.edge_pct ++ "%") ∧
      formatReturn none = "N/A" ∧
      formatReturn (some (1234/100)) = "12.3%" := by
  refine ⟨fun v hv hnz => ?_, fun h => ?_, rfl, ?_⟩
  · simp [displayedReturn, jsOr, hv, hnz, formatReturn]
  · rcases h with h | h <;> simp [displayedReturn, jsOr, h, formatReturn]
  · show toFixed1 (1234/100) ++ "%" = "12.3%"
    rw [toFixed1_at_1234_div_100]
    rfl

theorem displayedReturn_truthiness_witness :
    (oppWithAnnualized.annualized_return = some 50 ∧ (50 : ℚ) ≠ 0 ∧
        displayedReturn oppWithAnnualized = toFixed1 50 ++ "%") ∧
      (oppZeroAnnualized.annualized_return = some 0 ∧
        displayedReturn oppZeroAnnualized = toFixed1 oppZeroAnnualized.edge_pct ++ "%") :=
  ⟨⟨rfl, by norm_num,
      (displayedReturn_truthiness oppWithAnnualized).1 50 rfl (by norm_num)⟩,
    ⟨rfl, (displayedReturn_truthiness oppZeroAnnualized).2.1 (Or.inr rfl)⟩⟩

/-- C10: the claim says `max_capital` always becomes a real number —
`parseFloat` of the input when that is a nonzero finite number and `0`
otherwise.  The sanitized input "1e999" is a valid floating-point
literal whose `parseFloat` overflows to Infinity, which is truthy, so
`parseFloat(v) || 0` stores Infinity: a value that is neither a finite
number nor `0`. -/
theorem maxCapital_overflow_cex :
    (maxCapitalOnChange "1e999" initialSettingsState).settings.max_capital
        = JSNum.inf true ∧
      (∀ q : ℚ, JSNum.inf true ≠ JSNum.fin q) ∧
      JSNum.inf true ≠ JSNum.fin 0 := by
  refine ⟨?_, fun q => by simp, by simp⟩
  simp [maxCapitalOnChange, jsParseFloat_1e999, JSNum.truthy]

/-- C10 (amended): the stored `max_capital` is never NaN and equals
`parseFloat` of the input when that value is truthy (nonzero and not
NaN — including the infinities produced by overflowing exponents such
as "1e999") and `0` otherwise; empty and non-numeric input yield `0`,
and negative values are stored as typed with no clamping. -/
theorem maxCapitalOnChange_truthy_or_zero (input : String) (s : SettingsState) :
    (maxCapitalOnChange input s).settings.max_capital ≠ JSNum.nan ∧
      (maxCapitalOnChange input s).settings.max_capital
        = (if (jsParseFloat input).truthy then jsParseFloat input else JSNum.fin 0) ∧
      (maxCapitalOnChange "" s).settings.max_capital = JSNum.fin 0 ∧
      (maxCapitalOnChange "-5" s).settings.max_capital = JSNum.fin (-5) ∧
      (maxCapitalOnChange "0" s).settings.max_capital = JSNum.fin 0 ∧
      (maxCapitalOnChange "1e999" s).settings.max_capital = JSNum.inf true := by
  refine ⟨?_, rfl, ?_, ?_, ?_, ?_⟩
  · by_cases h : (jsParseFloat input).truthy
    · simp only [maxCapitalOnChange, h, if_true]
      intro heq
      rw [heq] at h
      simp [JSNum.truthy] at h
    · simp [maxCapitalOnChange, h]
  · simp [maxCapitalOnChange, show jsParseFloat "" = JSNum.nan from rfl, JSNum.truthy]
  · simp [maxCapitalOnChange, jsParseFloat_neg5, JSNum.truthy]
  · simp [maxCapitalOnChange, jsParseFloat_zero_str, JSNum.truthy]
  · simp [maxCapitalOnChange, jsParseFloat_1e999, JSNum.truthy]

/-- C2: for every nonnegative current value V, `generateMockData`
returns exactly 24 points labelled with the ascending hour tags "00:00"
through "23:00"; the first value is 0.95 * V rounded to 2 decimals, the
last value is V itself (the unmodified input), and every value other
than the last is an integer number of hundredths, i.e. rounded to 2
decimal places — for any stream of random draws. -/
theorem generateMockData_spec (rand : ℕ → ℚ) (V : ℚ) (hV : 0 ≤ V) :
    (generateMockData rand V).length = 24 ∧
      (generateMockData rand V).map Prod.fst =
        ["00:00", "01:00", "02:00", "03:00", "04:00", "05:00", "06:00", "07:00",
         "08:00", "09:00", "10:00", "11:00", "12:00", "13:00", "14:00", "15:00",
         "16:00", "17:00", "18:00", "19:00", "20:00", "21:00", "22:00", "23:00"] ∧
      (generateMockData rand V).head? = some ("00:00", round2 (95/100 * V)) ∧
      (generateMockData rand V).getLast? = some ("23:00", V) ∧
      ∀ j : ℕ, j < 23 → ∃ p : String × ℚ,
        (generateMockData rand V)[j]? = some p ∧ ∃ m : ℤ, p.2 = (m : ℚ) / 100 := by
  obtain ⟨w, hlast⟩ := mockLoop_getLast? rand 23 0 (V * (95/100))
  have hgen : generateMockData rand V =
      (mockLoop rand 0 24 (V * (95/100))).dropLast ++ [(hourLabel 23, V)] := by
    have h := setLastValue_eq_dropLast_append (mockLoop rand 0 24 (V * (95/100))) V
      (hourLabel (0 + 23), w) hlast
    simpa [generateMockData] using h
  refine ⟨?_, ?_, ?_, ?_, ?_⟩
  · simp only [generateMockData]
    rw [setLastValue_length, mockLoop_length]
  · simp only [generateMockData]
    rw [setLastValue_map_fst, mockLoop_map_fst]
    decide
  · show (setLastValue (mockLoop rand 0 24 (V * (95/100))) V).head? = _
    rw [show round2 (95/100 * V) = round2 (V * (95/100)) by rw [mul_comm]]
    rfl
  · rw [hgen, List.getLast?_concat]
    rfl
  · intro j hj
    have hlenL : (mockLoop rand 0 24 (V * (95/100))).length = 24 :=
      mockLoop_length rand 24 0 _
    have hjlt : j < (mockLoop rand 0 24 (V * (95/100))).dropLast.length := by
      rw [List.length_dropLast, hlenL]
      omega
    refine ⟨(mockLoop rand 0 24 (V * (95/100))).dropLast.get ⟨j, hjlt⟩, ?_, ?_⟩
    · rw [hgen, List.getElem?_append, if_pos hjlt, List.getElem?_eq_getElem hjlt]
      rfl
    · have hmem : (mockLoop rand 0 24 (V * (95/100))).dropLast.get ⟨j, hjlt⟩ ∈
          (mockLoop rand 0 24 (V * (95/100))).dropLast := List.get_mem _ _ hjlt
      have hmem2 : (mockLoop rand 0 24 (V * (95/100))).dropLast.get ⟨j, hjlt⟩ ∈
          mockLoop rand 0 24 (V * (95/100)) :=
        List.dropLast_subset _ hmem
      exact mockLoop_snd_round rand 24 0 (V * (95/100)) _ hmem2

theorem generateMockData_spec_witness :
    (0 : ℚ) ≤ 100 ∧
      (generateMockData (fun _ => 0) 100).length = 24 ∧
      (generateMockData (fun _ => 0) 100).getLast? = some ("23:00", 100) :=
  ⟨by norm_num, (generateMockData_spec (fun _ => 0) 100 (by norm_num)).1,
    (generateMockData_spec (fun _ => 0) 100 (by norm_num)).2.2.2.1⟩

end Agents
